import Mathlib

/-!
Verification of the voices-core voice-gateway bridge logic.

The repository contains several near-identical revisions of the gateway:
the "v4.5" variant and the Supabase-backed "v4" variant (both in
`src/index.js`), a PCM16-output variant (`src/unnamed/part_000`), a
commit-every-50-frames variant (`src/unnamed/part_001`) and a skeleton
(`src/unnamed/part_002`).  The definitions below are shallow embeddings of
the per-call handlers of these variants: the registry of calls, the
OpenAI-side message handler (gate logic), the open handler (session
configuration and initial greeting), the Twilio-side media/start/stop
handlers, the agent-config resolver, and teardown.  A small scheduler model
captures the interleaving of the asynchronous `start` handler with `stop`.
The mu-law codec, which the spec places in scope but which is absent from
the source tree, is modelled from the spec's algorithm description.
-/

namespace VoiceGateway

/-- WebSocket ready states, as in the `ws` library. -/
inductive ReadyState where
  | connecting
  | wsOpen
  | closing
  | closed
deriving DecidableEq

/-- A socket handle: an identity plus its current ready state. -/
structure Sock where
  id : Nat
  readyState : ReadyState
deriving DecidableEq

/-! ## Call registry

`calls` is a JS `Map` from `callSid` to the per-call record.  We model it
as an association list; `Map.set` replaces the binding for an existing key,
`Map.delete` removes it, `Map.get` returns the most recent binding. -/

/-- The process-wide call table, keyed by `callSid`. -/
abbrev Registry (α : Type) : Type := List (String × α)

namespace Registry

def lookup {α : Type} : Registry α → String → Option α
  | [], _ => none
  | (k', v) :: t, k => if k' = k then some v else lookup t k

/-- `Map.delete`: remove the binding for `k`. -/
def erase {α : Type} : Registry α → String → Registry α
  | [], _ => []
  | (k', v) :: t, k => if k' = k then erase t k else (k', v) :: erase t k

/-- `Map.set`: bind `k` to `v`, replacing any previous binding. -/
def set {α : Type} (reg : Registry α) (k : String) (v : α) : Registry α :=
  (k, v) :: erase reg k

/-- Number of bindings carrying key `k`. -/
def countKey {α : Type} : Registry α → String → Nat
  | [], _ => 0
  | (k', _) :: t, k => (if k' = k then 1 else 0) + countKey t k


end Registry

/-! ## Protocol messages

Commands the gateway sends to the OpenAI realtime connection, commands it
sends back to the Twilio media stream, and the inbound OpenAI events it
consumes.  JSON strings are modelled structurally; fields that JS leaves
`undefined` become `Option`. -/

/-- `turn_detection` block of a `session.update` command. -/
structure TurnDetection where
  td_type : String
  threshold : Rat
  prefix_padding_ms : Nat
  silence_duration_ms : Nat
deriving DecidableEq

/-- `session` payload of a `session.update` command.  `temperature` and
`turn_detection` are absent in some revisions, hence `Option`. -/
structure SessionConfig where
  modalities : List String
  voice : String
  input_audio_format : String
  output_audio_format : String
  instructions : String
  temperature : Option Rat
  turn_detection : Option TurnDetection
deriving DecidableEq

/-- Outbound messages on the OpenAI websocket. -/
inductive OACommand where
  | sessionUpdate (session : SessionConfig)
  | inputAudioAppend (audio : String)
  | inputAudioCommit
  | responseCreate (modalities : List String) (instructions : String)
deriving DecidableEq

/-- Outbound messages on the Twilio websocket (only `media` frames). -/
inductive TwCommand where
  | media (streamSid : String) (payload : String)
deriving DecidableEq

/-- Inbound OpenAI events, keyed by their `type` field.  `errorEvt` carries
the optional `error.code` / `error.message`; the delta events carry the
optional `delta` payload (absent or non-string JSON becomes `none`). -/
inductive OAEvent where
  | errorEvt (code : Option String) (message : Option String)
  | speechStopped
  | transcriptDelta (delta : Option String)
  | audioDelta (delta : Option String)
  | responseCompleted
  | responseDone
  | otherEvt (t : String)
deriving DecidableEq

/-! ## Agent configuration (Supabase variant) -/

/-- `settings.voice` sub-object of an agent config. -/
structure VoiceSettings where
  voice_id : Option String
deriving DecidableEq

/-- `settings` sub-object of an agent config. -/
structure AgentSettings where
  voice : Option VoiceSettings
  temperature : Option Rat
  welcome_message : Option String
deriving DecidableEq

/-- `prompts` sub-object of an agent config. -/
structure Prompts where
  full : Option String
  base : Option String
deriving DecidableEq

/-- Personalization bundle returned by the agent-config resolver. -/
structure AgentConfig where
  system_prompt : Option String
  prompts : Option Prompts
  welcome_message : Option String
  settings : Option AgentSettings
deriving DecidableEq

/-- The `agentConfig || {}` fallback: the empty JS object. -/
def emptyAgentConfig : AgentConfig :=
  { system_prompt := none, prompts := none, welcome_message := none,
    settings := none }

/-- JS `a || b` on an optional string: `undefined` and `""` are falsy. -/
def jsOr (a : Option String) (b : String) : String :=
  match a with
  | none => b
  | some s => if s = "" then b else s

/-- JS truthiness of an optional string. -/
def strTruthy : Option String → Bool
  | none => false
  | some s => !(s == "")

/-- Default system instructions of the Supabase variant
(`connectOpenAI`, fallback of the `instructions` chain). -/
def defaultInstructions : String :=
  "Eres un asistente de voz bilingüe (español/inglés). Responde de forma natural, cordial y muy humana. Detecta el idioma del cliente y responde en el mismo idioma. Haz preguntas claras para entender cómo ayudar."

/-- Default welcome message of the Supabase variant. -/
def defaultWelcome : String :=
  "Hola, gracias por llamar. ¿En qué puedo ayudarte?"

/-- `agentConfig.system_prompt || agentConfig.prompts?.full ||
agentConfig.prompts?.base || default`. -/
def resolveInstructions (cfg : AgentConfig) : String :=
  jsOr cfg.system_prompt
    (jsOr (cfg.prompts.bind (fun p => p.full))
      (jsOr (cfg.prompts.bind (fun p => p.base)) defaultInstructions))

/-- `agentConfig.welcome_message || settings.welcome_message || default`. -/
def resolveWelcome (cfg : AgentConfig) : String :=
  jsOr cfg.welcome_message
    (jsOr ((cfg.settings.getD ⟨none, none, none⟩).welcome_message)
      defaultWelcome)

/-- The default voice id. -/
def alloyVoice : String := "alloy"

/-- The telephony audio encoding used on both legs. -/
def g711Ulaw : String := "g711_ulaw"

/-- The `turn_detection.type` value. -/
def serverVad : String := "server_vad"

/-- The two modalities requested by the Supabase variant. -/
def audioTextModalities : List String := ["audio", "text"]

/-- `voiceCfg.voice_id || "alloy"` where
`voiceCfg = (agentConfig.settings || left-brace right-brace).voice || ...`. -/
def resolveVoice (cfg : AgentConfig) : String :=
  jsOr ((cfg.settings.getD ⟨none, none, none⟩).voice.getD ⟨none⟩).voice_id
    alloyVoice

/-- `settings.temperature ?? 0.8` (nullish coalescing, not `||`). -/
def resolveTemperature (cfg : AgentConfig) : Rat :=
  ((cfg.settings.getD ⟨none, none, none⟩).temperature).getD ((8 : Rat) / 10)

/-- The `session.update` payload built by the Supabase variant's
`connectOpenAI` open handler (src/index.js lines 644-663). -/
def supabaseSession (cfg : AgentConfig) : SessionConfig :=
  { modalities := audioTextModalities
    voice := resolveVoice cfg
    input_audio_format := g711Ulaw
    output_audio_format := g711Ulaw
    instructions := resolveInstructions cfg
    temperature := some (resolveTemperature cfg)
    turn_detection := some
      { td_type := serverVad
        threshold := (1 : Rat) / 2
        prefix_padding_ms := 300
        silence_duration_ms := 500 } }

/-- System instructions hard-coded in the v4.5 variant's `session.update`. -/
def v45Instructions : String :=
  "Eres un asistente profesional de la empresa del cliente. Bilingüe (inglés/español). Abres la llamada inmediatamente con un saludo humano, cálido y natural. Nunca esperas a que la persona hable. Pide nombre y teléfono y ayuda según el servicio. No menciones Voices Core ni OpenAI."

/-- The `session.update` payload of the v4.5 variant
(src/index.js lines 171-195): fixed voice, g711 both ways, trailing
silence 400 ms. -/
def v45Session : SessionConfig :=
  { modalities := audioTextModalities
    voice := alloyVoice
    input_audio_format := g711Ulaw
    output_audio_format := g711Ulaw
    instructions := v45Instructions
    temperature := none
    turn_detection := some
      { td_type := serverVad
        threshold := (1 : Rat) / 2
        prefix_padding_ms := 300
        silence_duration_ms := 400 } }

/-- System instructions hard-coded in the PCM16 variant (part_000). -/
def p0Instructions : String :=
  "Eres un asistente de voz de Voices Core. Eres bilingüe (español/inglés). Saluda, detecta idioma, pide nombre, teléfono y motivo de la llamada. Responde corto, humano y cálido."

/-- Output format of the PCM16 variant. -/
def pcm16Format : String := "pcm16"

/-- The `session.update` payload of the PCM16 variant
(src/unnamed/part_000 lines 180-195): g711 in, PCM16 out, no
turn-detection block. -/
def part000Session : SessionConfig :=
  { modalities := audioTextModalities
    voice := alloyVoice
    input_audio_format := g711Ulaw
    output_audio_format := pcm16Format
    instructions := p0Instructions
    temperature := none
    turn_detection := none }

/-! ## Per-call records -/

/-- Per-call record of the Supabase variant (`calls.set`, src/index.js
lines 506-515). -/
structure CallRec where
  twilio : Sock
  openai : Sock
  streamSid : String
  pending : Bool
  hasResponded : Bool
  hasGreeted : Bool
  config : Option AgentConfig
  transcript : String
deriving DecidableEq

/-- Per-call record of the v4.5 variant (src/index.js lines 113-119). -/
structure CallRec45 where
  twilio : Sock
  openai : Sock
  streamSid : String
  pending : Bool
  hasResponded : Bool
deriving DecidableEq

/-- Per-call record of the PCM16 variant (src/unnamed/part_000
lines 87-93). -/
structure CallRecP0 where
  twilioWs : Sock
  openAiWs : Sock
  streamSid : String
  framesAccumulated : Nat
  pendingResponse : Bool
deriving DecidableEq

/-! ## OpenAI-side message handler (Supabase variant)

Shallow embedding of the `ws.on("message", ...)` callback inside
`connectOpenAI` of the Supabase variant (src/index.js lines 687-782),
specialised to a call that is present in the registry (the callback
returns immediately when `calls.get(callSid)` is undefined). -/

/-- The error code upstream uses when a response is already active. -/
def activeResponseCode : String := "conversation_already_has_active_response"

/-- Fallback shown when an error event has no code:
`event?.error?.code || "sin-codigo"`. -/
def noCodePlaceholder : String := "sin-codigo"

/-- Effective error code after the JS `||` fallback. -/
def effectiveCode (code : Option String) : String :=
  jsOr code noCodePlaceholder

/-- Instructions of the continuation `response.create` sent on
`input_audio_buffer.speech_stopped`. -/
def contInstructions : String :=
  "Responde de forma muy breve, clara, cordial y humana. Continúa la conversación de manera natural."

/-- One step of the Supabase OpenAI message handler: given the current
per-call record and the parsed event, returns the updated record, the
commands sent to OpenAI and the frames sent to Twilio. -/
def oaMessageHandler (call : CallRec) (e : OAEvent) :
    CallRec × List OACommand × List TwCommand :=
  match e with
  | .errorEvt code _ =>
      if effectiveCode code ≠ activeResponseCode then
        ({ call with pending := false }, [], [])
      else (call, [], [])
  | .speechStopped =>
      if call.pending then (call, [], [])
      else
        ({ call with pending := true },
         [OACommand.responseCreate audioTextModalities contInstructions], [])
  | .transcriptDelta d =>
      let text := jsOr d ""
      if text = "" then (call, [], [])
      else ({ call with transcript := call.transcript ++ text }, [], [])
  | .audioDelta d =>
      match d with
      | none => (call, [], [])
      | some a =>
          if a = "" then (call, [], [])
          else (call, [], [TwCommand.media call.streamSid a])
  | .responseCompleted => ({ call with pending := false }, [], [])
  | .responseDone => ({ call with pending := false }, [], [])
  | .otherEvt _ => (call, [], [])

/-- Error handler of the PCM16 variant (src/unnamed/part_000 lines
209-221): frees `pendingResponse` on every error, with no check of the
error code. -/
def p0ErrorHandler (call : CallRecP0) (code message : Option String) :
    CallRecP0 :=
  { call with pendingResponse := false }

/-- Does this event clear the gate in the Supabase handler?
(`response.completed`/`response.done`, or an error whose effective code is
not `conversation_already_has_active_response`.) -/
def clearsGate : OAEvent → Bool
  | .errorEvt code _ => effectiveCode code ≠ activeResponseCode
  | .responseCompleted => true
  | .responseDone => true
  | _ => false

/-- Does a command list contain a `response.create`? -/
def hasResponseCreate (cmds : List OACommand) : Bool :=
  cmds.any fun c =>
    match c with
    | OACommand.responseCreate _ _ => true
    | _ => false

/-- Fold the Supabase message handler over an event trace, collecting all
OpenAI-bound commands. -/
def runOA (call : CallRec) : List OAEvent → CallRec × List OACommand
  | [] => (call, [])
  | e :: es =>
      let r := oaMessageHandler call e
      let rest := runOA r.1 es
      (rest.1, r.2.1 ++ rest.2)

/-- Ghost counter for in-flight response generations: a `response.create`
increments it, a completion resets it to zero, a gate-clearing error (the
request failed or was rejected) resets it to zero; the
already-active-response error leaves the in-flight response running. -/
def stepOutstanding (call : CallRec) (o : Nat) (e : OAEvent) : Nat :=
  match e with
  | .responseCompleted => 0
  | .responseDone => 0
  | .errorEvt code _ =>
      if effectiveCode code ≠ activeResponseCode then 0 else o
  | .speechStopped => if call.pending then o else o + 1
  | _ => o

/-- Run the handler with the ghost in-flight counter alongside. -/
def runOutstanding (call : CallRec) (o : Nat) : List OAEvent → CallRec × Nat
  | [] => (call, o)
  | e :: es =>
      runOutstanding (oaMessageHandler call e).1 (stepOutstanding call o e) es

/-! ## Upstream open handler and socket lifecycle (Supabase variant) -/

/-- The registries of the three modelled variants. -/
abbrev RegistryS := Registry CallRec

abbrev Registry45 := Registry CallRec45

abbrev RegistryP0 := Registry CallRecP0

/-- Prefix of the initial-greeting instructions (the welcome text is
spliced in after it, wrapped in quotes). -/
def welcomePrefix : String :=
  "Da este saludo inicial de forma natural, amable y humana, y luego espera la respuesta del cliente: \""

/-- Closing quote of the greeting template. -/
def closingQuote : String := "\""

/-- The full instructions of the initial `response.create`. -/
def welcomeInstructions (w : String) : String :=
  welcomePrefix ++ w ++ closingQuote

/-- Shallow embedding of the `ws.on("open", ...)` callback inside the
Supabase variant's `connectOpenAI` (src/index.js lines 626-685): send one
`session.update`, then one greeting `response.create`, then mark the
registered call (if any) as greeted with the gate set. -/
def openAIOpenHandler (cfg : AgentConfig) (reg : RegistryS) (callSid : String) :
    RegistryS × List OACommand :=
  let cmds := [OACommand.sessionUpdate (supabaseSession cfg),
               OACommand.responseCreate audioTextModalities
                 (welcomeInstructions (resolveWelcome cfg))]
  let reg' :=
    match Registry.lookup reg callSid with
    | some call =>
        Registry.set reg callSid { call with hasGreeted := true, pending := true }
    | none => reg
  (reg', cmds)

/-- Events delivered to one upstream websocket: the single `open` event
and parsed protocol messages. -/
inductive UpEvent where
  | openEvt
  | msgEvt (e : OAEvent)
deriving DecidableEq

/-- State of one upstream socket next to the shared registry. -/
structure UpState where
  ready : ReadyState
  reg : RegistryS
deriving DecidableEq

/-- One delivery on the upstream socket.  `open` fires only while the
socket is still connecting (the `ws` library fires it at most once);
messages are handled through `oaMessageHandler` on the registered call. -/
def upStep (cfg : AgentConfig) (callSid : String) (s : UpState) (ev : UpEvent) :
    UpState × List OACommand :=
  match ev with
  | .openEvt =>
      if s.ready = ReadyState.connecting then
        let r := openAIOpenHandler cfg s.reg callSid
        ({ ready := ReadyState.wsOpen, reg := r.1 }, r.2)
      else (s, [])
  | .msgEvt e =>
      match Registry.lookup s.reg callSid with
      | none => (s, [])
      | some call =>
          let r := oaMessageHandler call e
          ({ s with reg := Registry.set s.reg callSid r.1 }, r.2.1)

/-- Fold `upStep` over a delivery trace, collecting OpenAI-bound
commands. -/
def runUp (cfg : AgentConfig) (callSid : String) (s : UpState) :
    List UpEvent → UpState × List OACommand
  | [] => (s, [])
  | ev :: evs =>
      let r := upStep cfg callSid s ev
      let rest := runUp cfg callSid r.1 evs
      (rest.1, r.2 ++ rest.2)

/-- Number of `session.update` commands in a command list. -/
def countSessionUpdates (cmds : List OACommand) : Nat :=
  (cmds.filter fun c =>
    match c with
    | OACommand.sessionUpdate _ => true
    | _ => false).length

/-- Is this command the initial-greeting `response.create`?  The greeting
instructions are the only ones starting with the characters of the
greeting template (`"Da ..."`); the continuation instructions start with
`"Re ..."`. -/
def isWelcomeCreate (c : OACommand) : Bool :=
  match c with
  | OACommand.responseCreate _ i =>
      match i.data with
      | 'D' :: 'a' :: _ => true
      | _ => false
  | _ => false

/-- Number of greeting `response.create` commands in a command list. -/
def countWelcomes (cmds : List OACommand) : Nat :=
  (cmds.filter isWelcomeCreate).length

/-! ## Twilio-side handlers -/

/-- Actions with process-wide effects: opening the upstream connection,
closing a socket, posting `voice-session-end`. -/
inductive GwAction where
  | connectUpstream
  | closeSock (id : Nat)
  | postSessionEnd (callSid : String)
deriving DecidableEq

/-- `media` case of the Supabase Twilio message handler (src/index.js
lines 520-541): drop the frame unless the call exists, its OpenAI socket
is open and the payload is truthy; otherwise forward one
`input_audio_buffer.append`. -/
def mediaCaseSupabase (callSid : Option String) (reg : RegistryS)
    (payload : Option String) : RegistryS × List OACommand :=
  match callSid with
  | none => (reg, [])
  | some sid =>
      match Registry.lookup reg sid with
      | none => (reg, [])
      | some call =>
          if call.openai.readyState ≠ ReadyState.wsOpen then (reg, [])
          else
            match payload with
            | none => (reg, [])
            | some p =>
                if p = "" then (reg, [])
                else (reg, [OACommand.inputAudioAppend p])

/-- `media` case of the v4.5 Twilio message handler (src/index.js lines
122-142); `calls.get(null)` is undefined, so a missing `callSid` also
drops the frame. -/
def mediaCase45 (callSid : Option String) (reg : Registry45)
    (payload : Option String) : Registry45 × List OACommand :=
  match callSid with
  | none => (reg, [])
  | some sid =>
      match Registry.lookup reg sid with
      | none => (reg, [])
      | some call =>
          if call.openai.readyState ≠ ReadyState.wsOpen then (reg, [])
          else
            match payload with
            | none => (reg, [])
            | some p =>
                if p = "" then (reg, [])
                else (reg, [OACommand.inputAudioAppend p])

/-- Instructions of the periodic `response.create` of the PCM16 variant. -/
def p0ResponseInstructions : String :=
  "Responde de forma breve, clara, humana y cordial al usuario."

/-- `media` case of the PCM16 variant (src/unnamed/part_000 lines
96-148): forward the frame, count it, and after 50 accumulated frames
with no response in flight issue a `response.create` and reset the
counter. -/
def mediaCaseP0 (callSid : Option String) (reg : RegistryP0)
    (payload : Option String) : RegistryP0 × List OACommand :=
  match callSid with
  | none => (reg, [])
  | some sid =>
      match Registry.lookup reg sid with
      | none => (reg, [])
      | some call =>
          if call.openAiWs.readyState ≠ ReadyState.wsOpen then (reg, [])
          else
            match payload with
            | none => (reg, [])
            | some p =>
                if p = "" then (reg, [])
                else
                  let frames := call.framesAccumulated + 1
                  if !call.pendingResponse && decide (50 ≤ frames) then
                    (Registry.set reg sid
                       { call with framesAccumulated := 0, pendingResponse := true },
                     [OACommand.inputAudioAppend p,
                      OACommand.responseCreate audioTextModalities p0ResponseInstructions])
                  else
                    (Registry.set reg sid { call with framesAccumulated := frames },
                     [OACommand.inputAudioAppend p])

/-- `start` case of the v4.5 Twilio message handler (src/index.js lines
105-120): open a fresh upstream connection and overwrite the registry
entry with a fresh record; the previous record's sockets are not closed. -/
def startCase45 (reg : Registry45) (sid stream : String) (tw oa : Sock) :
    Registry45 × List GwAction :=
  (Registry.set reg sid
     { twilio := tw, openai := oa, streamSid := stream,
       pending := false, hasResponded := false },
   [GwAction.connectUpstream])

/-- Registration performed at the end of the Supabase `start` case
(src/index.js lines 506-515). -/
def mkSupabaseCallRec (tw oa : Sock) (stream : String)
    (cfg : Option AgentConfig) : CallRec :=
  { twilio := tw, openai := oa, streamSid := stream,
    pending := false, hasResponded := false, hasGreeted := false,
    config := cfg, transcript := "" }

/-- `cleanupCall` of the v4.5 variant (src/index.js lines 280-292):
close each socket that is currently open, then delete the registry
entry; a missing `callSid` or an unregistered call is a no-op. -/
def cleanupCall (reg : Registry45) (callSid : Option String) :
    Registry45 × List GwAction :=
  match callSid with
  | none => (reg, [])
  | some sid =>
      match Registry.lookup reg sid with
      | none => (reg, [])
      | some call =>
          (Registry.erase reg sid,
           (if call.openai.readyState = ReadyState.wsOpen then
              [GwAction.closeSock call.openai.id] else []) ++
           (if call.twilio.readyState = ReadyState.wsOpen then
              [GwAction.closeSock call.twilio.id] else []))

/-- `endSessionAndCleanup` of the Supabase variant (src/index.js lines
798-841): best-effort `voice-session-end` post when credentials exist,
then close each open socket, then delete the registry entry. -/
def endSessionAndCleanup (hasUrl hasToken : Bool) (reg : RegistryS)
    (callSid : Option String) : RegistryS × List GwAction :=
  match callSid with
  | none => (reg, [])
  | some sid =>
      match Registry.lookup reg sid with
      | none => (reg, [])
      | some call =>
          (Registry.erase reg sid,
           (if hasUrl && hasToken then [GwAction.postSessionEnd sid] else []) ++
           (if call.openai.readyState = ReadyState.wsOpen then
              [GwAction.closeSock call.openai.id] else []) ++
           (if call.twilio.readyState = ReadyState.wsOpen then
              [GwAction.closeSock call.twilio.id] else []))

/-! ## Agent-config resolution (Supabase variant) -/

/-- Outcome of the `fetch` against the config resolver. -/
inductive FetchOutcome where
  | ok (cfg : AgentConfig)
  | httpErr
  | netErr
deriving DecidableEq

/-- `loadAgentConfig` (src/index.js lines 563-610): `none` when
credentials or routing attributes are missing or the resolver answers
with a non-OK status; a rejected `fetch` propagates as an exception. -/
def loadAgentConfig (hasUrl hasToken : Bool)
    (agentId fromNumber toNumber : Option String)
    (outcome : FetchOutcome) : Except Unit (Option AgentConfig) :=
  if !(hasUrl && hasToken) then Except.ok none
  else if strTruthy agentId || strTruthy toNumber then
    match outcome with
    | FetchOutcome.ok cfg => Except.ok (some cfg)
    | FetchOutcome.httpErr => Except.ok none
    | FetchOutcome.netErr => Except.error ()
  else Except.ok none

/-- The `start` case's `try/catch` around `loadAgentConfig`
(src/index.js lines 455-464): an exception becomes a null config. -/
def startResolve (hasUrl hasToken : Bool)
    (agentId fromNumber toNumber : Option String)
    (outcome : FetchOutcome) : Option AgentConfig :=
  match loadAgentConfig hasUrl hasToken agentId fromNumber toNumber outcome with
  | Except.ok r => r
  | Except.error _ => none

/-! ## Interleaving of the asynchronous start handler with teardown

The Supabase Twilio message handler is an `async` callback: the `start`
case suspends at `await loadAgentConfig(...)` while further messages
(`stop`) and the socket-close callback keep running.  `callSid` and
`streamSid` are closure variables shared by all the callbacks. -/

/-- State of one Twilio connection callback scope. -/
structure ConnState where
  registry : RegistryS
  callSid : Option String
  streamSid : Option String
  startSuspended : Bool
  upstreamOpens : Nat
deriving DecidableEq

/-- Scheduler events: a `start` frame arrives (runs until the config
await), the config lookup resolves (the suspended continuation runs to
completion), a `stop` frame arrives, the Twilio socket closes. -/
inductive ConnEvent where
  | twStart (sid stream : String)
  | configResolved (cfg : Option AgentConfig)
  | twStop
  | wsClose
deriving DecidableEq

/-- Initial state of a fresh Twilio connection. -/
def initConnState : ConnState :=
  { registry := [], callSid := none, streamSid := none,
    startSuspended := false, upstreamOpens := 0 }

/-- One scheduler step.  Mirrors src/index.js lines 436-557: the `start`
case assigns the closure variables and suspends; the resumed continuation
unconditionally opens the upstream connection and registers the call
(there is no re-check of teardown); `stop` and socket close run
`endSessionAndCleanup` on the current `callSid`. -/
def connStep (hasUrl hasToken : Bool) (tw oa : Sock) (s : ConnState)
    (ev : ConnEvent) : ConnState × List GwAction :=
  match ev with
  | ConnEvent.twStart sid stream =>
      ({ s with callSid := some sid, streamSid := some stream,
                startSuspended := true }, [])
  | ConnEvent.configResolved cfg =>
      if s.startSuspended then
        match s.callSid, s.streamSid with
        | some sid, some stream =>
            ({ s with startSuspended := false,
                      upstreamOpens := s.upstreamOpens + 1,
                      registry :=
                        Registry.set s.registry sid
                          (mkSupabaseCallRec tw oa stream cfg) },
             [GwAction.connectUpstream])
        | _, _ => ({ s with startSuspended := false }, [])
      else (s, [])
  | ConnEvent.twStop =>
      let r := endSessionAndCleanup hasUrl hasToken s.registry s.callSid
      ({ s with registry := r.1 }, r.2)
  | ConnEvent.wsClose =>
      match s.callSid with
      | none => (s, [])
      | some sid =>
          let r := endSessionAndCleanup hasUrl hasToken s.registry (some sid)
          ({ s with registry := r.1 }, r.2)

/-- Fold `connStep` over a scheduler trace. -/
def runConn (hasUrl hasToken : Bool) (tw oa : Sock) (s : ConnState) :
    List ConnEvent → ConnState × List GwAction
  | [] => (s, [])
  | ev :: evs =>
      let r := connStep hasUrl hasToken tw oa s ev
      let rest := runConn hasUrl hasToken tw oa r.1 evs
      (rest.1, r.2 ++ rest.2)

/-! ## Mu-law audio codec

Modelled from the spec: no codec implementation exists under `src/` (the
PCM16 variant leaves the conversion as a future step), so the sample
codec is built from the spec's algorithm description (§4.1): clamp the
magnitude, add the bias constant 132, find the exponent as the highest
set bit position within the 8-band ladder, pack sign (1 bit), exponent
(3 bits) and mantissa (4 bits) into one byte, and bitwise-invert the
byte; decoding inverts the byte and reconstructs the linear magnitude. -/

/-- Modelled from the spec: maximum representable clamped magnitude of the
standard mu-law ladder. -/
def ulawClip : Int := 32635

/-- Modelled from the spec: clamp a non-negative magnitude to the maximum
representable range. -/
def ulawClamp (m : Int) : Int := if ulawClip < m then ulawClip else m

/-- Modelled from the spec: exponent band of a biased magnitude — the
position of the highest set bit within the fixed ladder of 8 bands. -/
def ulawExponent (v : Nat) : Nat :=
  if 16384 ≤ v then 7 else if 8192 ≤ v then 6 else if 4096 ≤ v then 5
  else if 2048 ≤ v then 4 else if 1024 ≤ v then 3 else if 512 ≤ v then 2
  else if 256 ≤ v then 1 else 0

/-- Modelled from the spec: pack sign, exponent and the top four mantissa
bits of the biased magnitude `v`, then bitwise-invert the byte
(`255 - n` is the 8-bit complement for `n ≤ 255`). -/
def ulawEncodeMag (sign v : Nat) : Nat :=
  255 - (sign + 16 * ulawExponent v + (v >>> (ulawExponent v + 3)) % 16)

/-- Modelled from the spec: `encode(sample: int16) -> uint8`; total on all
of `Int`, out-of-range input is clamped, never rejected. -/
def ulawEncode (x : Int) : Nat :=
  if x < 0 then ulawEncodeMag 128 ((ulawClamp (-x)).toNat + 132)
  else ulawEncodeMag 0 ((ulawClamp x).toNat + 132)

/-- Modelled from the spec: linear magnitude reconstructed from exponent
and mantissa, bias subtracted
(`(33 + 2*mant) * 2^(e+2) - 132 = (2^(e+7) - 132) + 2^(e+2) + mant * 2^(e+3)`). -/
def ulawDecodeMag (e mant : Nat) : Int :=
  Int.ofNat ((33 + 2 * mant) * 2 ^ (e + 2)) - 132

/-- Modelled from the spec: `decode(byte: uint8) -> int16` — invert the
byte, split sign/exponent/mantissa, reconstruct and apply the sign. -/
def ulawDecode (b : Nat) : Int :=
  (if 128 ≤ 255 - (b % 256) then -1 else 1) *
    ulawDecodeMag (((255 - (b % 256)) / 16) % 8) ((255 - (b % 256)) % 16)

/-! ## Concrete sample inputs used in witnesses and counterexamples -/

/-- Sample call id (spec scenario A). -/
def ca1 : String := "CA1"

/-- Sample stream id (spec scenario A). -/
def mz1 : String := "MZ1"

/-- A media payload that is present but empty (falsy in JS). -/
def emptyPayload : Option String := some ""

def twSockOpen : Sock := { id := 1, readyState := ReadyState.wsOpen }

def oaSockOpen : Sock := { id := 2, readyState := ReadyState.wsOpen }

def oaSockConnecting : Sock := { id := 2, readyState := ReadyState.connecting }

def sampleCall : CallRec := mkSupabaseCallRec twSockOpen oaSockOpen mz1 none

def sampleReg : RegistryS := [(ca1, sampleCall)]

def sampleCall45 : CallRec45 :=
  { twilio := twSockOpen, openai := oaSockOpen, streamSid := mz1,
    pending := false, hasResponded := false }

def sampleReg45 : Registry45 := [(ca1, sampleCall45)]

/-- A PCM16-variant call with a response generation in flight. -/
def sampleP0Call : CallRecP0 :=
  { twilioWs := twSockOpen, openAiWs := oaSockOpen, streamSid := mz1,
    framesAccumulated := 0, pendingResponse := true }

/-- A v4.5 call whose upstream socket is still connecting when teardown
runs. -/
def cexCall45 : CallRec45 :=
  { twilio := twSockOpen, openai := oaSockConnecting, streamSid := mz1,
    pending := false, hasResponded := false }

def cexReg45 : Registry45 := [(ca1, cexCall45)]

/-! ## Registry lemmas -/

namespace Registry

theorem lookup_erase_self {α : Type} (reg : Registry α) (k : String) :
    lookup (erase reg k) k = none := by
  induction reg with
  | nil => rfl
  | cons p t ih =>
    obtain ⟨k', v⟩ := p
    by_cases hp : k' = k
    · simp only [erase, if_pos hp]; exact ih
    · simp only [erase, if_neg hp, lookup, ih]

theorem lookup_erase_ne {α : Type} (reg : Registry α) (k k' : String)
    (h : k' ≠ k) : lookup (erase reg k) k' = lookup reg k' := by
  induction reg with
  | nil => rfl
  | cons p t ih =>
    obtain ⟨k₀, v⟩ := p
    by_cases hp : k₀ = k
    · simp only [erase, if_pos hp, lookup, ih]
      rw [if_neg (fun hh : k₀ = k' => h (hp ▸ hh ▸ rfl))]
    · simp only [erase, if_neg hp, lookup, ih]

theorem lookup_set_self {α : Type} (reg : Registry α) (k : String) (v : α) :
    lookup (set reg k v) k = some v := by
  simp [lookup, set]

theorem lookup_set_ne {α : Type} (reg : Registry α) (k k' : String) (v : α)
    (h : k' ≠ k) : lookup (set reg k v) k' = lookup reg k' := by
  simp only [set, lookup, if_neg (fun hh : k = k' => h hh.symm)]
  exact lookup_erase_ne reg k k' h

theorem countKey_erase_self {α : Type} (reg : Registry α) (k : String) :
    countKey (erase reg k) k = 0 := by
  induction reg with
  | nil => rfl
  | cons p t ih =>
    obtain ⟨k', v⟩ := p
    by_cases hp : k' = k
    · simp only [erase, if_pos hp]; exact ih
    · simp only [erase, if_neg hp, countKey, ih]

theorem countKey_set_self {α : Type} (reg : Registry α) (k : String) (v : α) :
    countKey (set reg k v) k = 1 := by
  simp [set, countKey, countKey_erase_self]

theorem countKey_erase_ne {α : Type} (reg : Registry α) (k k' : String)
    (h : k' ≠ k) : countKey (erase reg k) k' = countKey reg k' := by
  induction reg with
  | nil => rfl
  | cons p t ih =>
    obtain ⟨k₀, v⟩ := p
    by_cases hp : k₀ = k
    · simp only [erase, if_pos hp, ih, countKey]
      rw [if_neg (fun hh : k₀ = k' => h (hp ▸ hh ▸ rfl))]
      omega
    · simp only [erase, if_neg hp, countKey, ih]

theorem countKey_set_ne {α : Type} (reg : Registry α) (k k' : String) (v : α)
    (h : k' ≠ k) : countKey (set reg k v) k' = countKey reg k' := by
  simp only [set, countKey, if_neg (fun hh : k = k' => h hh.symm)]
  simpa using countKey_erase_ne reg k k' h

end Registry

theorem ulawExponent_le (v : Nat) : ulawExponent v ≤ 7 := by
  unfold ulawExponent
  repeat' split
  all_goals omega

/-- Decoding an encoded biased magnitude recovers the packed fields. -/
theorem ulawDecode_encodeMag (sign v : Nat) (hs : sign = 0 ∨ sign = 128)
    (h1 : 132 ≤ v) (h2 : v ≤ 32767) :
    ulawDecode (ulawEncodeMag sign v) =
      (if sign = 128 then -1 else 1) *
        ulawDecodeMag (ulawExponent v) ((v >>> (ulawExponent v + 3)) % 16) := by
  have he := ulawExponent_le v
  unfold ulawDecode ulawEncodeMag
  have hm : (v >>> (ulawExponent v + 3)) % 16 < 16 := Nat.mod_lt _ (by omega)
  set e := ulawExponent v with hedef
  set mant := (v >>> (e + 3)) % 16 with hmdef
  have hsum : sign + 16 * e + mant ≤ 255 := by omega
  have hb : (255 - (sign + 16 * e + mant)) % 256 = 255 - (sign + 16 * e + mant) := by
    omega
  rw [hb]
  have hu : 255 - (255 - (sign + 16 * e + mant)) = sign + 16 * e + mant := by omega
  rw [hu]
  rcases hs with hs | hs
  · subst hs
    have h128 : ¬ 128 ≤ 0 + 16 * e + mant := by omega
    rw [if_neg h128, if_neg (by simp)]
    have he' : (0 + 16 * e + mant) / 16 % 8 = e := by omega
    have hm' : (0 + 16 * e + mant) % 16 = mant := by omega
    rw [he', hm']
  · subst hs
    have h128 : 128 ≤ 128 + 16 * e + mant := by omega
    rw [if_pos h128, if_pos rfl]
    have he' : (128 + 16 * e + mant) / 16 % 8 = e := by omega
    have hm' : (128 + 16 * e + mant) % 16 = mant := by omega
    rw [he', hm']

/-- Within the ladder the reconstructed magnitude is the band midpoint:
off from the unbiased input by at most half a mantissa step (≤ 512). -/
theorem ulawDecodeMag_bound (v : Nat) (h1 : 132 ≤ v) (h2 : v ≤ 32767) :
    (ulawDecodeMag (ulawExponent v) ((v >>> (ulawExponent v + 3)) % 16)
      - (Int.ofNat v - 132)).natAbs ≤ 512 := by
  rw [Nat.shiftRight_eq_div_pow]
  unfold ulawDecodeMag ulawExponent
  repeat' split
  all_goals (norm_num; omega)

theorem ulawEncode_hi (x : Int) (h1 : 32635 < x) :
    ulawEncode x = ulawEncodeMag 0 32767 := by
  unfold ulawEncode ulawClamp ulawClip
  rw [if_neg (by omega), if_pos (by omega)]
  decide

theorem ulawEncode_lo (x : Int) (h1 : x < -32635) :
    ulawEncode x = ulawEncodeMag 128 32767 := by
  unfold ulawEncode ulawClamp ulawClip
  rw [if_pos (by omega), if_pos (by omega)]
  decide

theorem ulawDecode_top : ulawDecode (ulawEncodeMag 0 32767) = 32124 := by decide

theorem ulawDecode_bot : ulawDecode (ulawEncodeMag 128 32767) = -32124 := by decide

/-- Quantization bound of the full codec: at most 512 within the ladder,
at most 644 once clamping of the extreme samples is included. -/
theorem ulaw_roundtrip_bound (x : Int) (hlo : -32768 ≤ x) (hhi : x ≤ 32767) :
    (ulawDecode (ulawEncode x) - x).natAbs ≤ 644 := by
  by_cases hneg : x < 0
  · by_cases hcl : x < -32635
    · rw [ulawEncode_lo x hcl, ulawDecode_bot]
      omega
    · have hx : ulawEncode x = ulawEncodeMag 128 ((ulawClamp (-x)).toNat + 132) := by
        unfold ulawEncode
        rw [if_pos hneg]
      have hclamp : ulawClamp (-x) = -x := by
        unfold ulawClamp ulawClip
        rw [if_neg (by omega)]
      rw [hx, hclamp]
      set v : Nat := (-x).toNat + 132 with hv
      have h1 : 132 ≤ v := by omega
      have h2 : v ≤ 32767 := by omega
      rw [ulawDecode_encodeMag 128 v (Or.inr rfl) h1 h2, if_pos rfl]
      have hb := ulawDecodeMag_bound v h1 h2
      have hxv : (Int.ofNat v - 132) = -x := by
        simp only [Int.ofNat_eq_coe, hv]
        push_cast
        omega
      rw [hxv] at hb
      omega
  · by_cases hcl : 32635 < x
    · rw [ulawEncode_hi x hcl, ulawDecode_top]
      omega
    · have hx : ulawEncode x = ulawEncodeMag 0 ((ulawClamp x).toNat + 132) := by
        unfold ulawEncode
        rw [if_neg hneg]
      have hclamp : ulawClamp x = x := by
        unfold ulawClamp ulawClip
        rw [if_neg (by omega)]
      rw [hx, hclamp]
      set v : Nat := x.toNat + 132 with hv
      have h1 : 132 ≤ v := by omega
      have h2 : v ≤ 32767 := by omega
      rw [ulawDecode_encodeMag 0 v (Or.inl rfl) h1 h2, if_neg (by norm_num)]
      have hb := ulawDecodeMag_bound v h1 h2
      have hxv : (Int.ofNat v - 132) = x := by
        simp only [Int.ofNat_eq_coe, hv]
        push_cast
        omega
      rw [hxv] at hb
      omega

set_option maxRecDepth 10000 in
/-- Re-encoding a decoded byte is exact away from the negative-zero code
0x7F (whose decoded value 0 re-encodes as 0xFF). -/
theorem ulaw_encode_decode (b : Nat) (hb : b < 256) (hne : b ≠ 127) :
    ulawEncode (ulawDecode b) = b := by
  revert hne
  revert hb
  revert b
  decide

theorem ulawEncode_clamps_hi (x : Int) (h : ulawClip ≤ x) :
    ulawEncode x = ulawEncode ulawClip := by
  have hc : ulawClip = (32635 : Int) := rfl
  by_cases he : (32635 : Int) < x
  · rw [ulawEncode_hi x he, hc]
    decide
  · have hx : x = (32635 : Int) := by rw [hc] at h; omega
    rw [hx, hc]

theorem ulawEncode_clamps_lo (x : Int) (h : x ≤ -ulawClip) :
    ulawEncode x = ulawEncode (-ulawClip) := by
  have hc : ulawClip = (32635 : Int) := rfl
  by_cases he : x < -(32635 : Int)
  · rw [ulawEncode_lo x he, hc]
    decide
  · have hx : x = -(32635 : Int) := by rw [hc] at h; omega
    rw [hx, hc]

/-! ## Gate lemmas (Supabase OpenAI message handler) -/

/-- The handler emits a `response.create` exactly on a `speech_stopped`
event that finds the gate down. -/
theorem oaMessage_emits_iff (call : CallRec) (e : OAEvent) :
    hasResponseCreate (oaMessageHandler call e).2.1 = true ↔
      (e = OAEvent.speechStopped ∧ call.pending = false) := by
  cases e with
  | errorEvt c m =>
      simp only [oaMessageHandler]
      split <;> simp [hasResponseCreate]
  | speechStopped =>
      by_cases h : call.pending <;>
        simp [oaMessageHandler, h, hasResponseCreate]
  | transcriptDelta d =>
      simp only [oaMessageHandler]
      split <;> simp [hasResponseCreate]
  | audioDelta d =>
      cases d with
      | none => simp [oaMessageHandler, hasResponseCreate]
      | some a =>
          simp only [oaMessageHandler]
          split <;> simp [hasResponseCreate]
  | responseCompleted => simp [oaMessageHandler, hasResponseCreate]
  | responseDone => simp [oaMessageHandler, hasResponseCreate]
  | otherEvt t => simp [oaMessageHandler, hasResponseCreate]

/-- Sending the `response.create` raises the gate. -/
theorem oaMessage_send_sets_pending (call : CallRec) (e : OAEvent)
    (h : hasResponseCreate (oaMessageHandler call e).2.1 = true) :
    (oaMessageHandler call e).1.pending = true := by
  obtain ⟨he, hp⟩ := (oaMessage_emits_iff call e).mp h
  subst he
  simp [oaMessageHandler, hp]

/-- While the gate is up, a trace free of gate-clearing events emits no
`response.create` and leaves the gate up. -/
theorem runOA_no_send_while_pending (es : List OAEvent) :
    ∀ (call : CallRec), call.pending = true →
      (∀ e ∈ es, clearsGate e = false) →
      hasResponseCreate (runOA call es).2 = false ∧
        (runOA call es).1.pending = true := by
  induction es with
  | nil =>
      intro call hp _
      exact ⟨rfl, hp⟩
  | cons e t ih =>
      intro call hp hcl
      have hce : clearsGate e = false := hcl e (List.mem_cons_self e t)
      have hct : ∀ e' ∈ t, clearsGate e' = false :=
        fun e' he' => hcl e' (List.mem_cons_of_mem e he')
      have hstep : (oaMessageHandler call e).1.pending = true ∧
          (oaMessageHandler call e).2.1 = [] := by
        cases e with
        | errorEvt c m =>
            have heq : effectiveCode c = activeResponseCode := by
              simpa [clearsGate] using hce
            simp [oaMessageHandler, heq, hp]
        | speechStopped => simp [oaMessageHandler, hp]
        | transcriptDelta d =>
            simp only [oaMessageHandler]
            constructor
            · split <;> simp [hp]
            · split <;> rfl
        | audioDelta d =>
            cases d with
            | none => simp [oaMessageHandler, hp]
            | some a =>
                simp only [oaMessageHandler]
                constructor
                · split <;> simp [hp]
                · split <;> rfl
        | responseCompleted => simp [clearsGate] at hce
        | responseDone => simp [clearsGate] at hce
        | otherEvt s => simp [oaMessageHandler, hp]
      have hrest := ih (oaMessageHandler call e).1 hstep.1 hct
      refine ⟨?_, ?_⟩
      · show hasResponseCreate ((oaMessageHandler call e).2.1 ++
          (runOA (oaMessageHandler call e).1 t).2) = false
        rw [hstep.2]
        simpa using hrest.1
      · exact hrest.2

/-- The ghost in-flight counter tracks the gate exactly. -/
theorem runOutstanding_inv (es : List OAEvent) :
    ∀ (call : CallRec),
      (runOutstanding call (if call.pending then 1 else 0) es).2 =
        (if (runOutstanding call (if call.pending then 1 else 0) es).1.pending
          then 1 else 0) := by
  induction es with
  | nil => intro call; rfl
  | cons e t ih =>
      intro call
      have hstep : stepOutstanding call (if call.pending then 1 else 0) e =
          (if (oaMessageHandler call e).1.pending then 1 else 0) := by
        cases e with
        | errorEvt c m =>
            by_cases h : effectiveCode c ≠ activeResponseCode <;>
              simp [stepOutstanding, oaMessageHandler, h]
        | speechStopped =>
            by_cases h : call.pending <;>
              simp [stepOutstanding, oaMessageHandler, h]
        | transcriptDelta d =>
            by_cases hd : jsOr d "" = "" <;>
              simp [stepOutstanding, oaMessageHandler, hd]
        | audioDelta d =>
            cases d with
            | none => rfl
            | some a =>
                by_cases ha : a = "" <;>
                  simp [stepOutstanding, oaMessageHandler, ha]
        | responseCompleted => simp [stepOutstanding, oaMessageHandler]
        | responseDone => simp [stepOutstanding, oaMessageHandler]
        | otherEvt s => rfl
      simp only [runOutstanding, hstep]
      exact ih (oaMessageHandler call e).1

/-- C1: over any interleaving of upstream events, at most one response
generation is in flight per call: a `response.create` is sent exactly on a
`speech_stopped` event with the gate down, the send raises the gate, no
further `response.create` is emitted while the gate is up until a
completion or a gate-clearing error, and the ghost in-flight counter never
exceeds one from a gate-down start. -/
theorem claim_C1_single_flight_gate :
    (∀ (call : CallRec) (e : OAEvent),
        hasResponseCreate (oaMessageHandler call e).2.1 = true ↔
          (e = OAEvent.speechStopped ∧ call.pending = false))
    ∧ (∀ (call : CallRec) (e : OAEvent),
        hasResponseCreate (oaMessageHandler call e).2.1 = true →
          (oaMessageHandler call e).1.pending = true)
    ∧ (∀ (call : CallRec) (es : List OAEvent), call.pending = true →
        (∀ e ∈ es, clearsGate e = false) →
          hasResponseCreate (runOA call es).2 = false ∧
            (runOA call es).1.pending = true)
    ∧ (∀ (call : CallRec) (es : List OAEvent), call.pending = false →
        (runOutstanding call 0 es).2 ≤ 1) := by
  refine ⟨oaMessage_emits_iff, oaMessage_send_sets_pending,
    fun call es hp hcl => runOA_no_send_while_pending es call hp hcl,
    fun call es hp => ?_⟩
  have hinv := runOutstanding_inv es call
  rw [hp] at hinv
  simp only [Bool.false_eq_true, if_false] at hinv
  rw [hinv]
  split <;> omega

/-- Witness for C1 at a concrete call and trace. -/
theorem claim_C1_witness :
    (hasResponseCreate (oaMessageHandler sampleCall OAEvent.speechStopped).2.1 = true)
    ∧ (runOutstanding sampleCall 0
        [OAEvent.speechStopped, OAEvent.speechStopped,
         OAEvent.responseCompleted, OAEvent.speechStopped]).2 ≤ 1 :=
  ⟨(claim_C1_single_flight_gate.1 sampleCall OAEvent.speechStopped).mpr
      ⟨rfl, rfl⟩,
   claim_C1_single_flight_gate.2.2.2 sampleCall
      [OAEvent.speechStopped, OAEvent.speechStopped,
       OAEvent.responseCompleted, OAEvent.speechStopped] rfl⟩

/-- C2 counterexample: the PCM16 variant's error handler clears the gate
even when the error code is `conversation_already_has_active_response`,
so the claimed "cleared iff the code differs" fails on that cited
handler. -/
theorem claim_C2_counterexample :
    sampleP0Call.pendingResponse = true ∧
      (p0ErrorHandler sampleP0Call (some activeResponseCode) none).pendingResponse
        = false :=
  ⟨rfl, rfl⟩

/-- C2 (amended): in the v4.5/Supabase error handler the gate is cleared
iff the effective error code differs from
`conversation_already_has_active_response`, nothing else is modified and
nothing is sent; the PCM16 variant's error handler instead clears the
gate on every error. -/
theorem claim_C2_error_gate :
    (∀ (call : CallRec) (code message : Option String),
        oaMessageHandler call (OAEvent.errorEvt code message) =
          (if effectiveCode code = activeResponseCode then call
           else { call with pending := false }, [], []))
    ∧ (∀ (call : CallRecP0) (code message : Option String),
        p0ErrorHandler call code message =
          { call with pendingResponse := false }) := by
  constructor
  · intro call c m
    by_cases h : effectiveCode c = activeResponseCode <;>
      simp [oaMessageHandler, h]
  · intro call c m
    rfl

/-- C3 counterexample: teardown removes the registry entry while the
upstream socket, still in the connecting state, is never closed — so
"both adapters' sockets are released (closed) before the registry entry
is removed" fails. -/
theorem claim_C3_counterexample :
    Registry.lookup (cleanupCall cexReg45 (some ca1)).1 ca1 = none ∧
    cexCall45.openai.readyState = ReadyState.connecting ∧
    (cleanupCall cexReg45 (some ca1)).2 = [GwAction.closeSock twSockOpen.id] ∧
    ¬ (GwAction.closeSock cexCall45.openai.id ∈
        (cleanupCall cexReg45 (some ca1)).2) := by
  decide

/-- C3 (amended): teardown is idempotent and removes the registry entry
exactly once, closing (before the removal) exactly those sockets that are
in the OPEN state; sockets still connecting are not closed.  A second
invocation for the same callId is a no-op, in both the v4.5 and the
Supabase variant. -/
theorem claim_C3_teardown_idempotent :
    (∀ (reg : Registry45) (sid : String) (call : CallRec45),
        Registry.lookup reg sid = some call →
          Registry.lookup (cleanupCall reg (some sid)).1 sid = none ∧
          Registry.countKey (cleanupCall reg (some sid)).1 sid = 0 ∧
          (call.openai.readyState = ReadyState.wsOpen →
            GwAction.closeSock call.openai.id ∈ (cleanupCall reg (some sid)).2) ∧
          (call.twilio.readyState = ReadyState.wsOpen →
            GwAction.closeSock call.twilio.id ∈ (cleanupCall reg (some sid)).2) ∧
          cleanupCall (cleanupCall reg (some sid)).1 (some sid) =
            ((cleanupCall reg (some sid)).1, []))
    ∧ (∀ (reg : Registry45) (sid : String),
        Registry.lookup reg sid = none → cleanupCall reg (some sid) = (reg, []))
    ∧ (∀ (reg : Registry45), cleanupCall reg none = (reg, []))
    ∧ (∀ (hu ht : Bool) (reg : RegistryS) (sid : String) (call : CallRec),
        Registry.lookup reg sid = some call →
          Registry.lookup (endSessionAndCleanup hu ht reg (some sid)).1 sid = none ∧
          endSessionAndCleanup hu ht
              (endSessionAndCleanup hu ht reg (some sid)).1 (some sid) =
            ((endSessionAndCleanup hu ht reg (some sid)).1, [])) := by
  refine ⟨?_, ?_, ?_, ?_⟩
  · intro reg sid call h
    simp only [cleanupCall, h]
    refine ⟨Registry.lookup_erase_self reg sid,
      Registry.countKey_erase_self reg sid, ?_, ?_, ?_⟩
    · intro ho
      simp [ho]
    · intro ht
      simp [ht]
    · simp only [cleanupCall, Registry.lookup_erase_self reg sid]
  · intro reg sid h
    simp only [cleanupCall, h]
  · intro reg
    rfl
  · intro hu ht reg sid call h
    simp only [endSessionAndCleanup, h]
    exact ⟨Registry.lookup_erase_self reg sid,
      by simp only [endSessionAndCleanup, Registry.lookup_erase_self reg sid]⟩

/-- Witness for C3 at a concrete one-call registry with both sockets
open. -/
theorem claim_C3_witness :
    Registry.lookup (cleanupCall sampleReg45 (some ca1)).1 ca1 = none ∧
    GwAction.closeSock sampleCall45.openai.id ∈
      (cleanupCall sampleReg45 (some ca1)).2 ∧
    cleanupCall (cleanupCall sampleReg45 (some ca1)).1 (some ca1) =
      ((cleanupCall sampleReg45 (some ca1)).1, []) :=
  ⟨(claim_C3_teardown_idempotent.1 sampleReg45 ca1 sampleCall45 (by decide)).1,
   (claim_C3_teardown_idempotent.1 sampleReg45 ca1 sampleCall45
      (by decide)).2.2.1 rfl,
   (claim_C3_teardown_idempotent.1 sampleReg45 ca1 sampleCall45
      (by decide)).2.2.2.2⟩

/-- C4: evaluation of the failing interleaving — `start` suspends at the
config await, `stop` runs (a no-op, the call is not yet registered), then
the config continuation resumes: it opens the upstream connection and
registers the call anyway, because the handler never re-checks the call's
state after the await.  The claim says the bridge would never open
upstream nor register in this scenario. -/
theorem claim_C4_stop_during_config :
    ((runConn true true twSockOpen oaSockConnecting initConnState
        [ConnEvent.twStart ca1 mz1, ConnEvent.twStop,
         ConnEvent.configResolved none]).1.upstreamOpens = 1)
    ∧ ((Registry.lookup (runConn true true twSockOpen oaSockConnecting
          initConnState
          [ConnEvent.twStart ca1 mz1, ConnEvent.twStop,
           ConnEvent.configResolved none]).1.registry ca1) =
        some (mkSupabaseCallRec twSockOpen oaSockConnecting mz1 none)) := by
  decide

/-! ## Welcome / session-configure counting (Supabase open handler) -/

theorem countSessionUpdates_append (a b : List OACommand) :
    countSessionUpdates (a ++ b) = countSessionUpdates a + countSessionUpdates b := by
  simp [countSessionUpdates, List.filter_append]

theorem countWelcomes_append (a b : List OACommand) :
    countWelcomes (a ++ b) = countWelcomes a + countWelcomes b := by
  simp [countWelcomes, List.filter_append]

theorem isWelcomeCreate_welcomeInstructions (m : List String) (w : String) :
    isWelcomeCreate (OACommand.responseCreate m (welcomeInstructions w)) = true := by
  have hp : welcomePrefix.data = 'D' :: 'a' :: welcomePrefix.data.drop 2 := by
    decide
  show (match (welcomePrefix ++ w ++ closingQuote).data with
    | 'D' :: 'a' :: _ => true
    | _ => false) = true
  rw [String.data_append, String.data_append, hp]
  rfl

theorem isWelcomeCreate_cont (m : List String) :
    isWelcomeCreate (OACommand.responseCreate m contInstructions) = false := rfl

theorem isWelcomeCreate_sessionUpdate (x : SessionConfig) :
    isWelcomeCreate (OACommand.sessionUpdate x) = false := rfl

theorem openAIOpenHandler_cmds (cfg : AgentConfig) (reg : RegistryS)
    (sid : String) :
    (openAIOpenHandler cfg reg sid).2 =
      [OACommand.sessionUpdate (supabaseSession cfg),
       OACommand.responseCreate audioTextModalities
         (welcomeInstructions (resolveWelcome cfg))] := rfl

theorem countWelcomes_open_cmds (cfg : AgentConfig) (reg : RegistryS)
    (sid : String) :
    countWelcomes (openAIOpenHandler cfg reg sid).2 = 1 := by
  rw [openAIOpenHandler_cmds]
  simp [countWelcomes, isWelcomeCreate_sessionUpdate,
    isWelcomeCreate_welcomeInstructions]

theorem countSessionUpdates_open_cmds (cfg : AgentConfig) (reg : RegistryS)
    (sid : String) :
    countSessionUpdates (openAIOpenHandler cfg reg sid).2 = 1 := rfl

/-- The message handler emits no `session.update` and no welcome. -/
theorem oaMessage_counts (call : CallRec) (e : OAEvent) :
    countSessionUpdates (oaMessageHandler call e).2.1 = 0 ∧
      countWelcomes (oaMessageHandler call e).2.1 = 0 := by
  cases e with
  | errorEvt c m =>
      simp only [oaMessageHandler]
      split <;> exact ⟨rfl, rfl⟩
  | speechStopped =>
      by_cases h : call.pending
      · simp only [oaMessageHandler, h, if_true]
        exact ⟨rfl, rfl⟩
      · simp only [oaMessageHandler, h, Bool.false_eq_true, if_false]
        exact ⟨rfl, rfl⟩
  | transcriptDelta d =>
      simp only [oaMessageHandler]
      split <;> exact ⟨rfl, rfl⟩
  | audioDelta d =>
      cases d with
      | none => exact ⟨rfl, rfl⟩
      | some a =>
          simp only [oaMessageHandler]
          split <;> exact ⟨rfl, rfl⟩
  | responseCompleted => exact ⟨rfl, rfl⟩
  | responseDone => exact ⟨rfl, rfl⟩
  | otherEvt s => exact ⟨rfl, rfl⟩

/-- A message delivery never changes the socket's ready state. -/
theorem upStep_msg_ready (cfg : AgentConfig) (sid : String) (s : UpState)
    (e : OAEvent) :
    (upStep cfg sid s (UpEvent.msgEvt e)).1.ready = s.ready := by
  simp only [upStep]
  split <;> rfl

/-- Over any delivery trace, the number of `session.update` commands and
the number of greeting `response.create` commands are both one exactly
when the socket was still connecting and the trace delivers `open`, and
zero otherwise. -/
theorem runUp_counts (cfg : AgentConfig) (sid : String) (es : List UpEvent) :
    ∀ (s : UpState),
      countSessionUpdates (runUp cfg sid s es).2 =
        (if s.ready = ReadyState.connecting ∧ UpEvent.openEvt ∈ es
          then 1 else 0) ∧
      countWelcomes (runUp cfg sid s es).2 =
        (if s.ready = ReadyState.connecting ∧ UpEvent.openEvt ∈ es
          then 1 else 0) := by
  induction es with
  | nil =>
      intro s
      simp [runUp, countSessionUpdates, countWelcomes]
  | cons ev t ih =>
      intro s
      simp only [runUp]
      rw [countSessionUpdates_append, countWelcomes_append]
      cases ev with
      | openEvt =>
          by_cases hr : s.ready = ReadyState.connecting
          · simp only [upStep]
            rw [if_pos hr]
            have hnew := ih { ready := ReadyState.wsOpen,
                              reg := (openAIOpenHandler cfg s.reg sid).1 }
            dsimp only
            rw [countSessionUpdates_open_cmds, countWelcomes_open_cmds,
              hnew.1, hnew.2]
            simp [hr]
          · simp only [upStep]
            rw [if_neg hr]
            have hnew := ih s
            dsimp only
            rw [hnew.1, hnew.2]
            simp [hr, countSessionUpdates, countWelcomes]
      | msgEvt e =>
          have hready := upStep_msg_ready cfg sid s e
          have hnew := ih (upStep cfg sid s (UpEvent.msgEvt e)).1
          rw [hnew.1, hnew.2, hready]
          have hstep : countSessionUpdates (upStep cfg sid s (UpEvent.msgEvt e)).2 = 0 ∧
              countWelcomes (upStep cfg sid s (UpEvent.msgEvt e)).2 = 0 := by
            simp only [upStep]
            cases hl : Registry.lookup s.reg sid with
            | none => exact ⟨rfl, rfl⟩
            | some call =>
                simp only [hl]
                exact oaMessage_counts call e
          rw [hstep.1, hstep.2]
          simp

/-- C5: when the upstream handshake succeeds, the Supabase open handler
issues exactly one `session.update` immediately followed by exactly one
greeting `response.create` carrying the resolved-or-default welcome text,
and raises the registered call's gate; over any delivery trace of one
upstream socket the greeting is issued at most once, in exactly the step
that also carries the single session-configure command. -/
theorem claim_C5_welcome_single (cfg : AgentConfig) (reg : RegistryS)
    (sid : String) (call : CallRec)
    (h : Registry.lookup reg sid = some call) :
    (openAIOpenHandler cfg reg sid).2 =
      [OACommand.sessionUpdate (supabaseSession cfg),
       OACommand.responseCreate audioTextModalities
         (welcomeInstructions (resolveWelcome cfg))] ∧
    Registry.lookup (openAIOpenHandler cfg reg sid).1 sid =
      some { call with hasGreeted := true, pending := true } ∧
    (∀ (es : List UpEvent) (s : UpState), s.ready = ReadyState.connecting →
      countWelcomes (runUp cfg sid s es).2 ≤ 1 ∧
      countSessionUpdates (runUp cfg sid s es).2 =
        countWelcomes (runUp cfg sid s es).2) := by
  refine ⟨openAIOpenHandler_cmds cfg reg sid, ?_, ?_⟩
  · simp only [openAIOpenHandler, h]
    exact Registry.lookup_set_self reg sid _
  · intro es s hr
    have hc := runUp_counts cfg sid es s
    rw [hc.1, hc.2]
    constructor
    · split <;> omega
    · rfl

/-- Witness for C5 at a concrete registry, config and trace. -/
theorem claim_C5_witness :
    (openAIOpenHandler emptyAgentConfig sampleReg ca1).2 =
      [OACommand.sessionUpdate (supabaseSession emptyAgentConfig),
       OACommand.responseCreate audioTextModalities
         (welcomeInstructions (resolveWelcome emptyAgentConfig))] ∧
    countWelcomes (runUp emptyAgentConfig ca1
      { ready := ReadyState.connecting, reg := sampleReg }
      [UpEvent.openEvt, UpEvent.msgEvt OAEvent.speechStopped]).2 ≤ 1 :=
  ⟨(claim_C5_welcome_single emptyAgentConfig sampleReg ca1 sampleCall
      (by decide)).1,
   ((claim_C5_welcome_single emptyAgentConfig sampleReg ca1 sampleCall
      (by decide)).2.2
      [UpEvent.openEvt, UpEvent.msgEvt OAEvent.speechStopped]
      { ready := ReadyState.connecting, reg := sampleReg } rfl).1⟩

/-- C6: every config-resolution failure mode (missing credentials,
resolver unreachable, non-OK response, no routing attributes) yields a
null config; the call is still registered, and the session opened with
the empty fallback config carries the built-in default instructions,
voice `alloy` and default welcome message. -/
theorem claim_C6_config_fallback :
    (∀ (aId fN tN : Option String) (oc : FetchOutcome),
        startResolve false true aId fN tN oc = none)
    ∧ (∀ (aId fN tN : Option String) (oc : FetchOutcome),
        startResolve true false aId fN tN oc = none)
    ∧ (∀ (hu ht : Bool) (aId fN tN : Option String),
        startResolve hu ht aId fN tN FetchOutcome.netErr = none)
    ∧ (∀ (hu ht : Bool) (aId fN tN : Option String),
        startResolve hu ht aId fN tN FetchOutcome.httpErr = none)
    ∧ (∀ (reg : RegistryS) (sid stream : String) (tw oa : Sock),
        Registry.lookup
          (Registry.set reg sid (mkSupabaseCallRec tw oa stream none)) sid =
          some (mkSupabaseCallRec tw oa stream none))
    ∧ (supabaseSession emptyAgentConfig).instructions = defaultInstructions
    ∧ (supabaseSession emptyAgentConfig).voice = alloyVoice
    ∧ resolveWelcome emptyAgentConfig = defaultWelcome := by
  refine ⟨?_, ?_, ?_, ?_, ?_, rfl, rfl, rfl⟩
  · intro aId fN tN oc
    rfl
  · intro aId fN tN oc
    rfl
  · intro hu ht aId fN tN
    cases hu <;> cases ht <;>
      first
        | rfl
        | (by_cases h : (strTruthy aId || strTruthy tN) = true <;>
            simp [startResolve, loadAgentConfig, h])
  · intro hu ht aId fN tN
    cases hu <;> cases ht <;>
      first
        | rfl
        | (by_cases h : (strTruthy aId || strTruthy tN) = true <;>
            simp [startResolve, loadAgentConfig, h])
  · intro reg sid stream tw oa
    exact Registry.lookup_set_self reg sid _

/-- C7 counterexample: the v4.5 variant's session configuration uses a
trailing silence of 400 ms, not the claimed 500 ms; the PCM16 variant
configures `pcm16` output and no turn-detection block at all. -/
theorem claim_C7_counterexample :
    v45Session.turn_detection = some
      { td_type := serverVad, threshold := (1 : Rat) / 2,
        prefix_padding_ms := 300, silence_duration_ms := 400 } ∧
    ¬ (v45Session.turn_detection = some
      { td_type := serverVad, threshold := (1 : Rat) / 2,
        prefix_padding_ms := 300, silence_duration_ms := 500 }) ∧
    part000Session.output_audio_format = pcm16Format ∧
    ¬ (part000Session.output_audio_format = g711Ulaw) ∧
    part000Session.turn_detection = none := by
  refine ⟨rfl, fun h => ?_, rfl, by decide, rfl⟩
  have h2 := congrArg (Option.map fun td => td.silence_duration_ms) h
  simp [v45Session] at h2

/-- C7 (amended): the Supabase variant's handshake emits, first, one
session-configure command whose fields are the configured-or-default
voice, `g711_ulaw` on both legs, the resolved-or-default instructions and
server-VAD turn detection with threshold 0.5, 300 ms prefix padding and
500 ms trailing silence; the earlier v4.5 variant instead uses 400 ms
trailing silence, and the PCM16 variant `pcm16` output with no
turn-detection block. -/
theorem claim_C7_session_configuration (cfg : AgentConfig) (reg : RegistryS)
    (sid : String) :
    (openAIOpenHandler cfg reg sid).2.head? =
      some (OACommand.sessionUpdate (supabaseSession cfg)) ∧
    (supabaseSession cfg).voice = resolveVoice cfg ∧
    (supabaseSession cfg).input_audio_format = g711Ulaw ∧
    (supabaseSession cfg).output_audio_format = g711Ulaw ∧
    (supabaseSession cfg).instructions = resolveInstructions cfg ∧
    (supabaseSession cfg).turn_detection = some
      { td_type := serverVad, threshold := (1 : Rat) / 2,
        prefix_padding_ms := 300, silence_duration_ms := 500 } :=
  ⟨rfl, rfl, rfl, rfl, rfl, rfl⟩

/-- C8 counterexample: the negative-zero byte 0x7F decodes to 0, which
re-encodes as 0xFF, so `encode(decode(b)) == b` fails at b = 127. -/
theorem claim_C8_counterexample :
    ulawDecode 127 = 0 ∧ ulawEncode (ulawDecode 127) = 255 ∧
      ¬ (ulawEncode (ulawDecode 127) = 127) := by
  decide

/-- C8 (amended): `encode(decode(b)) = b` for every byte except the
negative-zero code 0x7F (which re-encodes as 0xFF); for every in-range
16-bit sample the round-trip error is bounded by the ladder's
quantization bound (≤ 644 counting the clamped extremes, ≤ 512 inside
the ladder); encode is total and clamps out-of-range input. -/
theorem claim_C8_codec_roundtrip :
    (∀ b : Nat, b < 256 → b ≠ 127 → ulawEncode (ulawDecode b) = b)
    ∧ (ulawEncode (ulawDecode 127) = 255)
    ∧ (∀ x : Int, -32768 ≤ x → x ≤ 32767 →
        (ulawDecode (ulawEncode x) - x).natAbs ≤ 644)
    ∧ (∀ x : Int, ulawClip ≤ x → ulawEncode x = ulawEncode ulawClip)
    ∧ (∀ x : Int, x ≤ -ulawClip → ulawEncode x = ulawEncode (-ulawClip)) :=
  ⟨ulaw_encode_decode, by decide, ulaw_roundtrip_bound,
   ulawEncode_clamps_hi, ulawEncode_clamps_lo⟩

/-- Witness for C8 at concrete samples. -/
theorem claim_C8_witness :
    ulawEncode (ulawDecode 200) = 200 ∧
    (ulawDecode (ulawEncode 12345) - 12345).natAbs ≤ 644 ∧
    ulawEncode 40000 = ulawEncode ulawClip :=
  ⟨claim_C8_codec_roundtrip.1 200 (by decide) (by decide),
   claim_C8_codec_roundtrip.2.2.1 12345 (by decide) (by decide),
   claim_C8_codec_roundtrip.2.2.2.1 40000 (by decide)⟩

/-- C9: a media frame whose payload is absent or the empty string is
dropped by all three media handlers: nothing is sent upstream and the
registry (hence all per-call state) is unchanged, whatever the call's
state. -/
theorem claim_C9_falsy_payload_dropped (callSid : Option String) :
    (∀ (reg : RegistryS),
        mediaCaseSupabase callSid reg none = (reg, []) ∧
        mediaCaseSupabase callSid reg emptyPayload = (reg, []))
    ∧ (∀ (reg : Registry45),
        mediaCase45 callSid reg none = (reg, []) ∧
        mediaCase45 callSid reg emptyPayload = (reg, []))
    ∧ (∀ (reg : RegistryP0),
        mediaCaseP0 callSid reg none = (reg, []) ∧
        mediaCaseP0 callSid reg emptyPayload = (reg, [])) := by
  refine ⟨fun reg => ⟨?_, ?_⟩, fun reg => ⟨?_, ?_⟩, fun reg => ⟨?_, ?_⟩⟩ <;>
    cases callSid with
    | none => rfl
    | some sid =>
        simp only [mediaCaseSupabase, mediaCase45, mediaCaseP0, emptyPayload]
        cases hl : Registry.lookup reg sid with
        | none => rfl
        | some call =>
            simp only [hl]
            split <;> rfl

/-- C10: a `start` for an already-registered callSid overwrites the
registry entry with a fresh record (new sockets, gate down), keeping
exactly one binding for that key and leaving other calls untouched, and
emits no close on any socket. -/
theorem claim_C10_start_overwrites (reg : Registry45) (sid stream : String)
    (tw oa : Sock) (old : CallRec45)
    (h : Registry.lookup reg sid = some old) :
    Registry.lookup (startCase45 reg sid stream tw oa).1 sid =
      some { twilio := tw, openai := oa, streamSid := stream,
             pending := false, hasResponded := false } ∧
    Registry.countKey (startCase45 reg sid stream tw oa).1 sid = 1 ∧
    (∀ k, k ≠ sid →
      Registry.lookup (startCase45 reg sid stream tw oa).1 k =
        Registry.lookup reg k) ∧
    (∀ i, ¬ (GwAction.closeSock i ∈ (startCase45 reg sid stream tw oa).2)) := by
  refine ⟨Registry.lookup_set_self reg sid _,
    Registry.countKey_set_self reg sid _, ?_, ?_⟩
  · intro k hk
    exact Registry.lookup_set_ne reg sid k _ hk
  · intro i
    simp [startCase45]

/-- Witness for C10 at a concrete one-call registry. -/
theorem claim_C10_witness :
    Registry.lookup
      (startCase45 sampleReg45 ca1 mz1 twSockOpen oaSockConnecting).1 ca1 =
      some { twilio := twSockOpen, openai := oaSockConnecting,
             streamSid := mz1, pending := false, hasResponded := false } ∧
    Registry.countKey
      (startCase45 sampleReg45 ca1 mz1 twSockOpen oaSockConnecting).1 ca1 = 1 :=
  ⟨(claim_C10_start_overwrites sampleReg45 ca1 mz1 twSockOpen oaSockConnecting
      sampleCall45 (by decide)).1,
   (claim_C10_start_overwrites sampleReg45 ca1 mz1 twSockOpen oaSockConnecting
      sampleCall45 (by decide)).2.1⟩

end VoiceGateway
